import Mathlib

/-!
Shallow embedding of the playback orchestration core of the docc frontend
(React/TypeScript).  The definitions below are translated from:

* `frontend/src/services/audioService.ts` (the `AudioService` class),
* `frontend/src/hooks/useAudioControls.ts` (the `useAudioControls` hook),
* the `useVideoPlayer` hook (navigation / sequencer),
* the `VideoPlayer` component (auto-advance via `setTimeout`).

`HTMLAudioElement` objects are modelled as entries of an explicit heap
(`List (Nat × AudioElem)`) addressed by a numeric identity, so that object
identity ("the identical audio-element instance") and in-place mutation
(e.g. `audio.currentTime = 0`) are both expressible.  Network requests and
DOM-element creation are recorded in an explicit effect list.  Asynchronous
completion of a play promise is modelled by an explicit outcome value
(`MediaOutcome`): `play` run to the point where `element.play()` has been
invoked is `playPhase1`, and the settlement of the promise (the `onended` /
`onerror` handlers plus the hook code after `await`) is `finishPlay`.
-/

namespace Docc

/-- Variant tag of a script block (`type: "text" | "code"`). -/
inductive BlockType where
  | text
  | code
  deriving DecidableEq, Repr

/-- A line range of a code block (`types/script.ts`): all of `from`, `to`,
`from_line`, `to_line`, `line` are optional fields on the wire. -/
structure LineRange where
  fromField : Option Nat := none
  toField : Option Nat := none
  from_line : Option Nat := none
  to_line : Option Nat := none
  line : Option Nat := none
  deriving DecidableEq, Repr

/-- One block of the script (`ScriptBlock` in `types/script.ts`).  A block
persisted in a session may additionally carry a session-local narration
filename, which the player reads as `(currentBlock as any).audio_file`. -/
structure ScriptBlock where
  type : BlockType
  markdown : String
  file : Option String := none
  relevant_lines : List LineRange := []
  audio_file : Option String := none
  deriving DecidableEq, Repr

/-- The script document (`ScriptData` in `types/script.ts`).  On the wire
`audio_files` is optional and its entries are `string | null`, index-aligned
with `script`. -/
structure ScriptData where
  repository_path : String
  question : String
  script : List ScriptBlock
  audio_files : Option (List (Option String)) := none
  deriving DecidableEq, Repr

/-- Mutable state of one `HTMLAudioElement`.  A freshly constructed element
(`new Audio(url)`) is paused at time 0 with playback rate 1. -/
structure AudioElem where
  src : String
  paused : Bool
  currentTime : Nat
  playbackRate : Rat
  deriving DecidableEq, Repr

/-- Observable side effects of the audio service. -/
inductive Effect where
  /-- `ApiService.generateAudio(\x7b text \x7d)` — the synthesis request. -/
  | ttsRequest (text : String)
  /-- `ApiService.getAudioUrl(audioId)` — mapping an audio id to a URL. -/
  | audioUrlRequest (audioId : String)
  /-- `new Audio(url)` — creating a media element (starts a media fetch). -/
  | createElement (url : String)
  /-- `element.play()` on the element with the given identity. -/
  | mediaPlay (id : Nat)
  deriving DecidableEq, Repr

/-- The heap of audio elements: identity ↦ element state. -/
abbrev AudioHeap := List (Nat × AudioElem)

/-- Read the element with the given identity. -/
def heapGet (h : AudioHeap) (id : Nat) : Option AudioElem :=
  match h with
  | [] => none
  | (k, e) :: t => if k = id then some e else heapGet t id

/-- Mutate (in place) the element with the given identity. -/
def heapSet (h : AudioHeap) (id : Nat) (f : AudioElem → AudioElem) : AudioHeap :=
  h.map fun p => if p.1 = id then (p.1, f p.2) else p

/-- Lookup in the service's `Map<string, HTMLAudioElement>` cache
(values are element identities into the heap). -/
def findKey (k : String) : List (String × Nat) → Option Nat
  | [] => none
  | (k₂, v) :: t => if k₂ = k then some v else findKey k t

/-- State of the `AudioService` class (`audioService.ts`): the element heap,
the key ↦ element cache, the single `currentAudio` reference and the
configured session folder. -/
structure AudioServiceState where
  heap : AudioHeap
  nextId : Nat
  audioCache : List (String × Nat)
  currentAudio : Option Nat
  sessionFolder : Option String
  deriving DecidableEq, Repr

/-- A fresh `new AudioService()`. -/
def svcInit : AudioServiceState :=
  { heap := [], nextId := 0, audioCache := [], currentAudio := none, sessionFolder := none }

/-- The collaborating backends and environment, passed as oracles:
`ttsUrl` is the `audio_url` returned by `ApiService.generateAudio`,
`resolveAudioUrl` is `ApiService.getAudioUrl`, and `apiBase` is the
module-level `API_BASE_URL` (env.apiUrl with any `/api/v1` suffix cut). -/
structure Backend where
  ttsUrl : String → String
  resolveAudioUrl : String → String
  apiBase : String

/-- `stopCurrentAudio()`: pause the current element, reset its position to
zero and drop the reference. -/
def stopCurrentAudio (s : AudioServiceState) : AudioServiceState :=
  match s.currentAudio with
  | none => s
  | some id =>
      { s with
        heap := heapSet s.heap id fun e => { e with paused := true, currentTime := 0 }
        currentAudio := none }

/-- `pauseCurrentAudio()`: pause the current element if it is playing; the
element reference and its playback position are kept. -/
def pauseCurrentAudio (s : AudioServiceState) : AudioServiceState :=
  match s.currentAudio with
  | none => s
  | some id =>
      match heapGet s.heap id with
      | none => s
      | some e =>
          if e.paused then s
          else { s with heap := heapSet s.heap id fun x => { x with paused := true } }

/-- `resumeCurrentAudio()`: resume the current element if it is paused
(`element.play()` continues from the element's `currentTime`). -/
def resumeCurrentAudio (s : AudioServiceState) : AudioServiceState :=
  match s.currentAudio with
  | none => s
  | some id =>
      match heapGet s.heap id with
      | none => s
      | some e =>
          if e.paused then { s with heap := heapSet s.heap id fun x => { x with paused := false } }
          else s

/-- `clearCache()`: stop the current audio, then discard every cache entry. -/
def clearCache (s : AudioServiceState) : AudioServiceState :=
  let s₀ := stopCurrentAudio s
  { s₀ with audioCache := [] }

/-- `setSessionFolder(folder)`: record the folder, then clear the cache. -/
def setSessionFolder (folder : String) (s : AudioServiceState) : AudioServiceState :=
  clearCache { s with sessionFolder := some folder }

/-- `isPlaying()`: `currentAudio ? !currentAudio.paused : false`. -/
def svcIsPlaying (s : AudioServiceState) : Bool :=
  match s.currentAudio with
  | none => false
  | some id =>
      match heapGet s.heap id with
      | none => false
      | some e => !e.paused

/-- `getCacheSize()`. -/
def getCacheSize (s : AudioServiceState) : Nat :=
  s.audioCache.length

/-- `loadAudioFromSession(fileName)`: throws when no session folder is set;
otherwise returns the cached element for the filename, or creates one for
`/sessions/folder/audio/fileName` and caches it under the filename. -/
def loadAudioFromSession (fileName : String) (s : AudioServiceState) :
    Except String (Nat × AudioServiceState × List Effect) :=
  match s.sessionFolder with
  | none => .error ("No session folder set")
  | some folder =>
      match findKey fileName s.audioCache with
      | some id => .ok (id, s, [])
      | none =>
          let url := "/sessions/" ++ folder ++ "/audio/" ++ fileName
          let id := s.nextId
          let e : AudioElem := { src := url, paused := true, currentTime := 0, playbackRate := 1 }
          .ok (id,
               { s with
                 heap := (id, e) :: s.heap
                 nextId := id + 1
                 audioCache := (fileName, id) :: s.audioCache },
               [Effect.createElement url])

/-- The last `/`-separated segment of a URL (`url.split('/').pop()`): the
characters after the last slash (the whole string when there is none). -/
def lastSegment (s : String) : String :=
  String.mk ((s.data.reverse.takeWhile fun c => c ≠ '/').reverse)

/-- `generateAndCacheAudio(text)`: the cache key is the narration text
itself; on a miss, request synthesis, resolve the returned audio id to a
full URL and cache a fresh element under the text. -/
def generateAndCacheAudio (b : Backend) (text : String) (s : AudioServiceState) :
    Nat × AudioServiceState × List Effect :=
  match findKey text s.audioCache with
  | some id => (id, s, [])
  | none =>
      let audioUrl := b.ttsUrl text
      let audioId := lastSegment audioUrl
      let fullUrl := b.resolveAudioUrl audioId
      let id := s.nextId
      let e : AudioElem := { src := fullUrl, paused := true, currentTime := 0, playbackRate := 1 }
      (id,
       { s with
         heap := (id, e) :: s.heap
         nextId := id + 1
         audioCache := (text, id) :: s.audioCache },
       [Effect.ttsRequest text, Effect.audioUrlRequest audioId, Effect.createElement fullUrl])

/-- `audioUrl.startsWith('http')`, written on the character list. -/
def startsWithHttp (s : String) : Bool :=
  match s.data with
  | 'h' :: 't' :: 't' :: 'p' :: _ => true
  | _ => false

/-- Resolution of a possibly-relative URL against `API_BASE_URL`. -/
def fullUrlOf (apiBase url : String) : String :=
  if startsWithHttp url then url else apiBase ++ url

/-- Mark the given current element as playing (`element.play()` succeeded
and output started). -/
def beginOutput (id : Nat) (s : AudioServiceState) : AudioServiceState :=
  { s with heap := heapSet s.heap id fun e => { e with paused := false } }

/-- `playAudioFromUrl(audioUrl, speed)`, run up to the `element.play()`
call: stop the current audio, resolve the absolute URL, reuse the cached
element for that URL (or create and cache one), set its rate, make it the
current audio and start it.  Settlement of the returned promise is modelled
separately (`finishPlay`). -/
def playAudioFromUrl (b : Backend) (url : String) (speed : Rat) (s : AudioServiceState) :
    Nat × AudioServiceState × List Effect :=
  let s₀ := stopCurrentAudio s
  let full := fullUrlOf b.apiBase url
  match findKey full s₀.audioCache with
  | some id =>
      let s₁ := { s₀ with
                  heap := heapSet s₀.heap id fun e => { e with playbackRate := speed }
                  currentAudio := some id }
      (id, beginOutput id s₁, [Effect.mediaPlay id])
  | none =>
      let id := s₀.nextId
      let e : AudioElem := { src := full, paused := true, currentTime := 0, playbackRate := speed }
      let s₁ := { s₀ with
                  heap := (id, e) :: s₀.heap
                  nextId := id + 1
                  audioCache := (full, id) :: s₀.audioCache
                  currentAudio := some id }
      (id, beginOutput id s₁, [Effect.createElement full, Effect.mediaPlay id])

/-- `playAudioFromSession(fileName, speed)`, run up to `element.play()`.
When `loadAudioFromSession` throws, the wrapped error escapes but the
`stopCurrentAudio()` mutation persists. -/
def playAudioFromSession (fileName : String) (speed : Rat) (s : AudioServiceState) :
    Except String Nat × AudioServiceState × List Effect :=
  let s₀ := stopCurrentAudio s
  match loadAudioFromSession fileName s₀ with
  | .error msg => (.error ("Failed to play session audio: Error: " ++ msg), s₀, [])
  | .ok (id, s₁, effs) =>
      let s₂ := { s₁ with
                  heap := heapSet s₁.heap id fun e => { e with playbackRate := speed }
                  currentAudio := some id }
      (.ok id, beginOutput id s₂, effs ++ [Effect.mediaPlay id])

/-- `playAudio(text, speed)` (the synthesis fallback), run up to
`element.play()`. -/
def playAudio (b : Backend) (text : String) (speed : Rat) (s : AudioServiceState) :
    Nat × AudioServiceState × List Effect :=
  let s₀ := stopCurrentAudio s
  let r := generateAndCacheAudio b text s₀
  let s₂ := { r.2.1 with
              heap := heapSet r.2.1.heap r.1 fun e => { e with playbackRate := speed }
              currentAudio := some r.1 }
  (r.1, beginOutput r.1 s₂, r.2.2 ++ [Effect.mediaPlay r.1])

/-- The `onended` handler: the element reports end of resource (the DOM
leaves it paused) and the service drops the `currentAudio` reference. -/
def onEnded (s : AudioServiceState) : AudioServiceState :=
  match s.currentAudio with
  | none => s
  | some id =>
      { s with
        heap := heapSet s.heap id fun e => { e with paused := true }
        currentAudio := none }

/-- The `onerror` handler: the service drops the `currentAudio` reference
and the play promise rejects. -/
def onMediaError (s : AudioServiceState) : AudioServiceState :=
  { s with currentAudio := none }

/-- The media element advances while it is actually producing output
(models wall-clock playback between UI events). -/
def tickCurrent (n : Nat) (s : AudioServiceState) : AudioServiceState :=
  match s.currentAudio with
  | none => s
  | some id =>
      match heapGet s.heap id with
      | none => s
      | some e =>
          if e.paused then s
          else { s with heap := heapSet s.heap id fun x => { x with currentTime := x.currentTime + n } }

/-- State owned by the `useAudioControls` hook: the service instance plus
the `isPlaying` / `isPaused` / `isLoading` / `error` React state. -/
structure HookState where
  svc : AudioServiceState
  isPlaying : Bool
  isPaused : Bool
  isLoading : Bool
  error : Option String
  deriving DecidableEq, Repr

/-- The hook's initial state. -/
def hookInit : HookState :=
  { svc := svcInit, isPlaying := false, isPaused := false, isLoading := false, error := none }

/-- The props `play` closes over: the document, the current block (possibly
null), its index, the `sessionFolder` prop and the playback speed. -/
structure PlayCtx where
  scriptData : ScriptData
  currentBlock : Option ScriptBlock
  currentBlockIndex : Nat
  sessionFolder : Option String
  playbackSpeed : Rat

/-- Which audio source `play` dispatches to for a block. -/
inductive AudioSource where
  | preUrl (url : String)
  | sessionFile (name : String)
  | synthesis (text : String)
  deriving DecidableEq, Repr

/-- The `else` branch of the dispatch in `play`:
`if (sessionFolder && audioFile) playAudioFromSession else playAudio`.
JavaScript truthiness: an absent value and the empty string are falsy. -/
def sessionFallback (block : ScriptBlock) (sessionFolder : Option String) : AudioSource :=
  match sessionFolder, block.audio_file with
  | some sf, some af =>
      if sf ≠ "" ∧ af ≠ "" then .sessionFile af else .synthesis block.markdown
  | some _, none => .synthesis block.markdown
  | none, _ => .synthesis block.markdown

/-- The source-dispatch of `play` (`useAudioControls.ts`, lines 52-62):
`if (scriptData.audio_files && scriptData.audio_files[i]) playAudioFromUrl`,
else the session/synthesis fallback.  An out-of-range index reads as
`undefined`, and `null` / `""` entries are falsy. -/
def selectSource (sd : ScriptData) (block : ScriptBlock) (i : Nat)
    (sessionFolder : Option String) : AudioSource :=
  match sd.audio_files with
  | some files =>
      match files.getD i none with
      | some url => if url ≠ "" then .preUrl url else sessionFallback block sessionFolder
      | none => sessionFallback block sessionFolder
  | none => sessionFallback block sessionFolder

/-- The guard plus dispatch of `play`: `none` when the guard
`if (!currentBlock || isPlaying) return` fires. -/
def playRoute (ctx : PlayCtx) (hookPlaying : Bool) : Option AudioSource :=
  match ctx.currentBlock with
  | none => none
  | some block =>
      if hookPlaying then none
      else some (selectSource ctx.scriptData block ctx.currentBlockIndex ctx.sessionFolder)

/-- Result of running `play` up to its first suspension point. -/
inductive PlayPhase1Result where
  /-- The guard returned immediately; nothing happened. -/
  | noop
  /-- Media output was started; the hook is awaiting the play promise. -/
  | awaiting (st : HookState) (effects : List Effect)
  /-- The service threw before media output started; the catch/finally
  blocks have already run. -/
  | failed (st : HookState) (effects : List Effect)

/-- `play()` from `useAudioControls.ts` run up to the point where the
awaited service call either started media output or threw:
guard, `setIsLoading(true)`, `setError(null)`, `setIsPlaying(true)`,
`setIsPaused(false)`, then the three-way source dispatch. -/
def playPhase1 (b : Backend) (ctx : PlayCtx) (st : HookState) : PlayPhase1Result :=
  match playRoute ctx st.isPlaying with
  | none => .noop
  | some src =>
      let st₁ := { st with isLoading := true, error := none, isPlaying := true, isPaused := false }
      match src with
      | .preUrl url =>
          let r := playAudioFromUrl b url ctx.playbackSpeed st₁.svc
          .awaiting { st₁ with svc := r.2.1 } r.2.2
      | .sessionFile f =>
          match playAudioFromSession f ctx.playbackSpeed st₁.svc with
          | (.error msg, svc, effs) =>
              .failed { st₁ with
                        svc := svc
                        error := some ("Audio playback failed: Error: " ++ msg)
                        isPlaying := false
                        isPaused := false
                        isLoading := false } effs
          | (.ok _, svc, effs) => .awaiting { st₁ with svc := svc } effs
      | .synthesis txt =>
          let r := playAudio b txt ctx.playbackSpeed st₁.svc
          .awaiting { st₁ with svc := r.2.1 } r.2.2

/-- How the awaited play promise settles. -/
inductive MediaOutcome where
  | ended
  | mediaError
  deriving DecidableEq, Repr

/-- Result of a complete `play()` call: the final hook state, the effects
issued, and whether `onBlockComplete` was invoked. -/
structure PlayResult where
  state : HookState
  effects : List Effect
  blockCompleted : Bool
  deriving DecidableEq, Repr

/-- Settlement of the play promise and the hook code after `await`:
on natural completion the `onended` handler runs, the flags are cleared and
`onBlockComplete` fires; on a media error the `onerror` handler runs and
the catch block records a descriptive message (`Audio playback failed: …`)
and clears the flags.  `finally` clears `isLoading` in both cases. -/
def finishPlay (outcome : MediaOutcome) (st : HookState) (effs : List Effect) : PlayResult :=
  match outcome with
  | .ended =>
      { state := { st with svc := onEnded st.svc, isPlaying := false, isPaused := false,
                           isLoading := false }
        effects := effs
        blockCompleted := true }
  | .mediaError =>
      { state := { st with svc := onMediaError st.svc
                           error := some ("Audio playback failed: Error: Audio playback failed")
                           isPlaying := false
                           isPaused := false
                           isLoading := false }
        effects := effs
        blockCompleted := false }

/-- One whole `play()` call, with the promise settlement given by
`outcome`. -/
def play (b : Backend) (ctx : PlayCtx) (outcome : MediaOutcome) (st : HookState) : PlayResult :=
  match playPhase1 b ctx st with
  | .noop => { state := st, effects := [], blockCompleted := false }
  | .failed st₁ effs => { state := st₁, effects := effs, blockCompleted := false }
  | .awaiting st₁ effs => finishPlay outcome st₁ effs

/-- `pause()` from `useAudioControls.ts`. -/
def pause (st : HookState) : HookState :=
  { st with svc := pauseCurrentAudio st.svc, isPlaying := false, isPaused := true }

/-- `stop()` from `useAudioControls.ts`. -/
def stop (st : HookState) : HookState :=
  { st with svc := stopCurrentAudio st.svc, isPlaying := false, isPaused := false,
            isLoading := false, error := none }

/-! ### Sequencer (`useVideoPlayer` hook) -/

/-- `goToPrevious`: `Math.max(0, prev - 1)`. -/
def goToPrevIndex (i : Int) : Int :=
  max 0 (i - 1)

/-- `goToNext`: `Math.min(script.length - 1, prev + 1)`. -/
def goToNextIndex (len : Nat) (i : Int) : Int :=
  min ((len : Int) - 1) (i + 1)

/-- `currentBlock`: `scriptData.script[currentBlockIndex] || null` —
an out-of-range read yields `undefined`, which `|| null` turns into null. -/
def currentBlockOf (sd : ScriptData) (i : Int) : Option ScriptBlock :=
  if 0 ≤ i then sd.script[i.toNat]? else none

/-- Combined state of the `VideoPlayer` component: the audio hook state,
the sequencer index and the one-shot auto-play intent. -/
structure PlayerState where
  hook : HookState
  index : Int
  shouldAutoPlay : Bool
  deriving DecidableEq, Repr

/-- `handlePrevious`: `stop(); goToPrevious()` (and `goToPrevious` clears
the auto-play intent). -/
def handlePrevious (st : PlayerState) : PlayerState :=
  { hook := stop st.hook, index := goToPrevIndex st.index, shouldAutoPlay := false }

/-- `handleNext`: `stop(); goToNext()`. -/
def handleNext (sd : ScriptData) (st : PlayerState) : PlayerState :=
  { hook := stop st.hook, index := goToNextIndex sd.script.length st.index,
    shouldAutoPlay := false }

/-- `handleStop`: `stop(); goToStart()`. -/
def handleStop (st : PlayerState) : PlayerState :=
  { hook := stop st.hook, index := 0, shouldAutoPlay := false }

/-! ### Auto-advance (`VideoPlayer` component)

`handleBlockComplete` schedules `setTimeout(() => { goToNext();
triggerAutoPlay(); }, autoPlayDelay)` and discards the timer handle; no
code path calls `clearTimeout` on it.  The `useEffect` watching
`shouldAutoPlay` then calls `play()` when nothing is playing. -/

/-- Auto-advance configuration: the `autoPlay` checkbox, the configured
delay and the script length. -/
structure AutoCfg where
  autoPlay : Bool
  autoPlayDelay : Nat
  scriptLen : Nat
  deriving DecidableEq, Repr

/-- Observable auto-advance state of the `VideoPlayer`: the index, the
one-shot intent, whether audio is playing, the fire times of pending
(never-cancelled) `setTimeout` callbacks, and a log of the indices for
which `play()` has been invoked. -/
structure VPState where
  index : Int
  shouldAutoPlay : Bool
  isPlaying : Bool
  pendingAdvance : List Nat
  playLog : List Int
  deriving DecidableEq, Repr

/-- UI-thread events relevant to auto-advance. -/
inductive VPEvent where
  /-- `onBlockComplete` fires after natural completion of the current
  block (the hook has already set `isPlaying` to false). -/
  | blockComplete
  /-- The viewer presses the stop button (`handleStop`). -/
  | stopPressed
  /-- The `setTimeout` callback scheduled for time `t` fires. -/
  | timerFire (t : Nat)
  deriving DecidableEq, Repr

/-- One UI-thread step of the `VideoPlayer` at wall-clock time `now`.
`stopPressed` runs `stop(); goToStart()`; the `setTimeout` handle from
`handleBlockComplete` was discarded, so `pendingAdvance` is untouched.
A firing timer runs `goToNext(); triggerAutoPlay()`, after which the
auto-play effect consumes the intent and invokes `play()`. -/
def vpStep (cfg : AutoCfg) (now : Nat) (st : VPState) : VPEvent → VPState
  | .blockComplete =>
      if cfg.autoPlay ∧ st.index < (cfg.scriptLen : Int) - 1 then
        { st with pendingAdvance := st.pendingAdvance ++ [now + cfg.autoPlayDelay] }
      else st
  | .stopPressed =>
      { st with isPlaying := false, index := 0, shouldAutoPlay := false }
  | .timerFire t =>
      if t ∈ st.pendingAdvance then
        let st₁ := { st with
                     pendingAdvance := st.pendingAdvance.erase t
                     index := goToNextIndex cfg.scriptLen st.index
                     shouldAutoPlay := true }
        if st₁.shouldAutoPlay ∧ !st₁.isPlaying then
          { st₁ with shouldAutoPlay := false, isPlaying := true,
                     playLog := st₁.playLog ++ [st₁.index] }
        else st₁
      else st

/-- Run a time-ordered schedule of UI events. -/
def vpRun (cfg : AutoCfg) (st : VPState) (events : List (Nat × VPEvent)) : VPState :=
  events.foldl (fun s e => vpStep cfg e.1 s e.2) st

/-! ### Navigation reachability -/

/-- A navigation primitive of the sequencer. -/
inductive NavOp where
  | previousOp
  | nextOp
  | startOp
  deriving DecidableEq, Repr

/-- Apply one navigation primitive to the index. -/
def applyNav (len : Nat) (i : Int) : NavOp → Int
  | .previousOp => goToPrevIndex i
  | .nextOp => goToNextIndex len i
  | .startOp => 0

/-- The index after a sequence of navigation operations, starting from the
initial index 0. -/
def navIndex (len : Nat) (ops : List NavOp) : Int :=
  ops.foldl (applyNav len) 0

/-- Effect classifier: a synthesis-backend network request. -/
def isSynthesisFetch : Effect → Bool
  | .ttsRequest _ => true
  | .audioUrlRequest _ => true
  | _ => false

/-- Effect classifier: a `generateAudio` synthesis request. -/
def isTtsReq : Effect → Bool
  | .ttsRequest _ => true
  | _ => false

/-- Effect classifier: an `element.play()` call. -/
def isMediaPlayEff : Effect → Bool
  | .mediaPlay _ => true
  | _ => false

/-- Effect classifier: a `new Audio(url)` element creation. -/
def isCreateElem : Effect → Bool
  | .createElement _ => true
  | _ => false

/-! ### Basic lemmas about the service state -/

@[simp] theorem stopCurrentAudio_audioCache (s : AudioServiceState) :
    (stopCurrentAudio s).audioCache = s.audioCache := by
  unfold stopCurrentAudio; cases s.currentAudio <;> rfl

@[simp] theorem stopCurrentAudio_sessionFolder (s : AudioServiceState) :
    (stopCurrentAudio s).sessionFolder = s.sessionFolder := by
  unfold stopCurrentAudio; cases s.currentAudio <;> rfl

@[simp] theorem stopCurrentAudio_currentAudio (s : AudioServiceState) :
    (stopCurrentAudio s).currentAudio = none := by
  unfold stopCurrentAudio; cases h : s.currentAudio <;> simp [h]

@[simp] theorem stopCurrentAudio_nextId (s : AudioServiceState) :
    (stopCurrentAudio s).nextId = s.nextId := by
  unfold stopCurrentAudio; cases s.currentAudio <;> rfl

@[simp] theorem onEnded_audioCache (s : AudioServiceState) :
    (onEnded s).audioCache = s.audioCache := by
  unfold onEnded; cases s.currentAudio <;> rfl

@[simp] theorem onEnded_sessionFolder (s : AudioServiceState) :
    (onEnded s).sessionFolder = s.sessionFolder := by
  unfold onEnded; cases s.currentAudio <;> rfl

@[simp] theorem onEnded_currentAudio (s : AudioServiceState) :
    (onEnded s).currentAudio = none := by
  unfold onEnded; cases h : s.currentAudio <;> simp [h]

@[simp] theorem onEnded_nextId (s : AudioServiceState) :
    (onEnded s).nextId = s.nextId := by
  unfold onEnded; cases s.currentAudio <;> rfl

@[simp] theorem beginOutput_audioCache (id : Nat) (s : AudioServiceState) :
    (beginOutput id s).audioCache = s.audioCache := rfl

@[simp] theorem beginOutput_sessionFolder (id : Nat) (s : AudioServiceState) :
    (beginOutput id s).sessionFolder = s.sessionFolder := rfl

@[simp] theorem beginOutput_currentAudio (id : Nat) (s : AudioServiceState) :
    (beginOutput id s).currentAudio = s.currentAudio := rfl

@[simp] theorem beginOutput_nextId (id : Nat) (s : AudioServiceState) :
    (beginOutput id s).nextId = s.nextId := rfl

@[simp] theorem svcIsPlaying_of_currentAudio_none (s : AudioServiceState)
    (h : s.currentAudio = none) : svcIsPlaying s = false := by
  unfold svcIsPlaying; rw [h]

theorem findKey_cons_self (k : String) (v : Nat) (t : List (String × Nat)) :
    findKey k ((k, v) :: t) = some v := by
  simp [findKey]

/-- Updating an element and reading it back. -/
theorem heapGet_heapSet (h : AudioHeap) (id : Nat) (f : AudioElem → AudioElem) :
    heapGet (heapSet h id f) id = (heapGet h id).map f := by
  induction h with
  | nil => rfl
  | cons p t ih =>
      obtain ⟨k, e⟩ := p
      simp only [heapSet] at ih ⊢
      simp only [List.map_cons]
      by_cases hk : k = id
      · rw [if_pos hk]
        simp [heapGet, hk]
      · rw [if_neg hk]
        simp [heapGet, hk, ih]

@[simp] theorem finishPlay_effects (o : MediaOutcome) (st : HookState) (effs : List Effect) :
    (finishPlay o st effs).effects = effs := by
  cases o <;> rfl

/-- A concrete backend oracle used by witness instances. -/
def demoBackend : Backend :=
  { ttsUrl := fun _ => "/api/v1/audio/tts-1.mp3"
    resolveAudioUrl := fun s => "http://localhost:8000/api/v1/audio/" ++ s
    apiBase := "http://localhost:8000" }

/-! ### C2 -/

/-- C2: for every prior state of the audio service, `setSessionFolder`
leaves the cache empty (size 0), reports `isPlaying = false`, and no handle
cached before the call is reachable afterward (the cache list is `[]` and
the `currentAudio` reference is dropped). -/
theorem setSessionFolder_clears_cache_and_stops (s : AudioServiceState) (folder : String) :
    getCacheSize (setSessionFolder folder s) = 0 ∧
    svcIsPlaying (setSessionFolder folder s) = false ∧
    (setSessionFolder folder s).audioCache = [] ∧
    (setSessionFolder folder s).currentAudio = none := by
  unfold setSessionFolder clearCache getCacheSize
  refine ⟨by simp, ?_, by simp, by simp⟩
  apply svcIsPlaying_of_currentAudio_none
  simp

/-! ### C10 -/

/-- C10: calling `play()` while already playing, or with no current block,
is a complete no-op: the hook state (flags, error, service cache, active
resource) is returned unchanged, no effect (resolution, network request or
element creation) is issued, and `onBlockComplete` does not fire. -/
theorem play_noop_when_playing_or_no_block (b : Backend) (ctx : PlayCtx)
    (outcome : MediaOutcome) (st : HookState)
    (h : st.isPlaying = true ∨ ctx.currentBlock = none) :
    play b ctx outcome st = { state := st, effects := [], blockCompleted := false } := by
  unfold play playPhase1 playRoute
  rcases h with h | h
  · cases hc : ctx.currentBlock <;> simp [h, hc]
  · simp [h]

/-- A play context whose current block is null (empty script). -/
def c10ctx : PlayCtx :=
  { scriptData := { repository_path := ("r"), question := ("q"), script := [] }
    currentBlock := none
    currentBlockIndex := 0
    sessionFolder := none
    playbackSpeed := 1 }

/-- Witness for C10 at a concrete input. -/
theorem play_noop_when_playing_or_no_block_witness :
    (hookInit.isPlaying = true ∨ c10ctx.currentBlock = none) ∧
    play demoBackend c10ctx .ended hookInit =
      { state := hookInit, effects := [], blockCompleted := false } :=
  ⟨Or.inr rfl, play_noop_when_playing_or_no_block demoBackend c10ctx .ended hookInit (Or.inr rfl)⟩

/-! ### C4 -/

/-- Auto-play enabled, 500 ms delay, two-block script. -/
def c4cfg : AutoCfg := { autoPlay := true, autoPlayDelay := 500, scriptLen := 2 }

/-- Block 0 has just completed naturally: index 0, nothing playing. -/
def c4start : VPState :=
  { index := 0, shouldAutoPlay := false, isPlaying := false, pendingAdvance := [], playLog := [] }

/-- Natural completion at t=0, `stop()` at t=100, the (uncancelled)
`setTimeout` callback fires at t=500. -/
def c4schedule : List (Nat × VPEvent) :=
  [(0, .blockComplete), (100, .stopPressed), (500, .timerFire 500)]

/-- C4: the claim demands that `stop()` at t=100ms cancels the advance
scheduled at natural completion (index stays 0, no `play()` for index 1).
The code discards the `setTimeout` handle in `handleBlockComplete` and
`handleStop` never cancels it, so the timer still fires: the index advances
to 1 and `play()` is invoked for block 1. -/
theorem stop_does_not_cancel_pending_advance :
    (vpRun c4cfg c4start c4schedule).index = 1 ∧
    (vpRun c4cfg c4start c4schedule).playLog = [1] := by decide

/-! ### C1 -/

/-- A block carrying a session-local audio filename. -/
def c1block : ScriptBlock :=
  { type := .text, markdown := ("hello"), audio_file := some ("a.mp3") }

/-- A document whose `audio_files[0]` is the empty string: non-null, but
falsy in the JavaScript truthiness test guarding case 1. -/
def c1doc : ScriptData :=
  { repository_path := ("r"), question := ("q"), script := [c1block]
    audio_files := some [some ("")] }

/-- C1 counterexample: with `audio_files[0]` non-null (the empty string), a
session folder configured and a session-local filename on the block, the
dispatch of `play` selects the session file, not `audio_files[0]`. -/
theorem audio_files_empty_string_counterexample :
    selectSource c1doc c1block 0 (some ("sess")) = .sessionFile ("a.mp3") := by decide

/-- C1 (amended: `audio_files[i]` non-null and non-empty): resolution picks
the pre-generated URL — regardless of session folder and session filename —
and the resulting `play()` issues no synthesis-backend request. -/
theorem audio_files_precedence (sd : ScriptData) (block : ScriptBlock) (i : Nat)
    (sf : Option String) (files : List (Option String)) (url : String) (b : Backend)
    (outcome : MediaOutcome) (sp : Rat) (st : HookState)
    (hf : sd.audio_files = some files) (hu : files.getD i none = some url) (hne : url ≠ "")
    (hnp : st.isPlaying = false) :
    selectSource sd block i sf = .preUrl url ∧
    (play b { scriptData := sd, currentBlock := some block, currentBlockIndex := i,
              sessionFolder := sf, playbackSpeed := sp } outcome st).effects.filter
        isSynthesisFetch = [] := by
  have hu₂ : (files[i]?).getD none = some url := by
    rw [← List.getD_eq_getElem?_getD]
    exact hu
  have hsel : selectSource sd block i sf = .preUrl url := by
    simp [selectSource, hf, hu₂, hne]
  refine ⟨hsel, ?_⟩
  unfold play playPhase1 playRoute
  simp only [hnp, hsel, Bool.false_eq_true, if_false, finishPlay_effects]
  simp only [playAudioFromUrl, stopCurrentAudio_audioCache]
  cases hfk : findKey (fullUrlOf b.apiBase url) st.svc.audioCache <;>
    simp [hfk, isSynthesisFetch]

/-- C1 witness block (no session filename needed). -/
def c1wblock : ScriptBlock := { type := .text, markdown := ("m") }

/-- C1 witness document with a real pre-generated URL at index 0. -/
def c1wdoc : ScriptData :=
  { repository_path := ("r"), question := ("q"), script := [c1wblock]
    audio_files := some [some ("http://h/a.mp3")] }

/-- The C1 witness play context. -/
def c1wctx : PlayCtx :=
  { scriptData := c1wdoc, currentBlock := some c1wblock, currentBlockIndex := 0,
    sessionFolder := none, playbackSpeed := 1 }

/-- Witness for C1 at a concrete input. -/
theorem audio_files_precedence_witness :
    c1wdoc.audio_files = some [some ("http://h/a.mp3")] ∧
    [some ("http://h/a.mp3")].getD 0 none = some ("http://h/a.mp3") ∧
    selectSource c1wdoc c1wblock 0 none = .preUrl ("http://h/a.mp3") ∧
    (play demoBackend c1wctx .ended hookInit).effects.filter isSynthesisFetch = [] :=
  ⟨rfl, rfl,
   (audio_files_precedence c1wdoc c1wblock 0 none _ _ demoBackend .ended 1 hookInit rfl rfl
      (by decide) rfl).1,
   (audio_files_precedence c1wdoc c1wblock 0 none _ _ demoBackend .ended 1 hookInit rfl rfl
      (by decide) rfl).2⟩

/-! ### C9 -/

/-- A document with an empty script sequence. -/
def c9emptyDoc : ScriptData := { repository_path := ("r"), question := ("q"), script := [] }

/-- C9 counterexample: for the empty-script document, at the initial
(reachable) session state the `currentBlock` read is null. -/
theorem current_block_null_on_empty_script :
    currentBlockOf c9emptyDoc (navIndex c9emptyDoc.script.length []) = none := by decide

theorem applyNav_range (len : Nat) (i : Int) (op : NavOp)
    (h0 : 0 ≤ i) (h1 : i ≤ (len : Int) - 1) :
    0 ≤ applyNav len i op ∧ applyNav len i op ≤ (len : Int) - 1 := by
  cases op <;> simp [applyNav, goToPrevIndex, goToNextIndex] <;> omega

theorem navIndex_range (len : Nat) (hlen : 1 ≤ len) (ops : List NavOp) :
    0 ≤ navIndex len ops ∧ navIndex len ops ≤ (len : Int) - 1 := by
  unfold navIndex
  suffices h : ∀ i : Int, 0 ≤ i → i ≤ (len : Int) - 1 →
      0 ≤ ops.foldl (applyNav len) i ∧ ops.foldl (applyNav len) i ≤ (len : Int) - 1 by
    exact h 0 le_rfl (by omega)
  induction ops with
  | nil => intro i h0 h1; simpa using ⟨h0, h1⟩
  | cons op t ih =>
      intro i h0 h1
      simp only [List.foldl_cons]
      obtain ⟨g0, g1⟩ := applyNav_range len i op h0 h1
      exact ih _ g0 g1

/-- C9 (amended: for documents with a nonempty script): along every
sequence of navigation operations starting from index 0, the
`currentBlock` read `script[currentIndex] || null` is never null. -/
theorem current_block_some_of_nonempty (sd : ScriptData) (ops : List NavOp)
    (h : sd.script ≠ []) :
    currentBlockOf sd (navIndex sd.script.length ops) ≠ none := by
  have hlen : 1 ≤ sd.script.length := List.length_pos.mpr h
  obtain ⟨h0, h1⟩ := navIndex_range sd.script.length hlen ops
  unfold currentBlockOf
  rw [if_pos h0]
  have hlt : (navIndex sd.script.length ops).toNat < sd.script.length := by omega
  simp [List.getElem?_eq_getElem hlt]

/-- C9 witness document (one block). -/
def c9wdoc : ScriptData :=
  { repository_path := ("r"), question := ("q"), script := [{ type := .text, markdown := ("m") }] }

/-- Witness for C9 at a concrete input. -/
theorem current_block_some_of_nonempty_witness :
    c9wdoc.script ≠ [] ∧
    currentBlockOf c9wdoc (navIndex c9wdoc.script.length [NavOp.nextOp, NavOp.previousOp]) ≠ none :=
  ⟨by decide,
   current_block_some_of_nonempty c9wdoc [NavOp.nextOp, NavOp.previousOp] (by decide)⟩

/-! ### C5 -/

/-- C5: starting from any session state (index within the clamp range of
the data model), each navigation operation stops the audio service, clears
`isPlaying` / `isPaused` / `isLoading` and clamps the resulting index into
`[0, script.length - 1]`; in particular `previous()` at index 0 keeps the
index at 0 while still stopping playback. -/
theorem navigation_stops_playback_and_clamps (sd : ScriptData) (st : PlayerState)
    (h0 : 0 ≤ st.index) (h1 : st.index ≤ (sd.script.length : Int) - 1) :
    ((handlePrevious st).hook.isPlaying = false ∧ (handlePrevious st).hook.isPaused = false ∧
      (handlePrevious st).hook.isLoading = false ∧
      svcIsPlaying (handlePrevious st).hook.svc = false ∧
      0 ≤ (handlePrevious st).index ∧
      (handlePrevious st).index ≤ (sd.script.length : Int) - 1) ∧
    ((handleNext sd st).hook.isPlaying = false ∧ (handleNext sd st).hook.isPaused = false ∧
      (handleNext sd st).hook.isLoading = false ∧
      svcIsPlaying (handleNext sd st).hook.svc = false ∧
      0 ≤ (handleNext sd st).index ∧
      (handleNext sd st).index ≤ (sd.script.length : Int) - 1) ∧
    ((handleStop st).hook.isPlaying = false ∧ (handleStop st).hook.isPaused = false ∧
      (handleStop st).hook.isLoading = false ∧
      svcIsPlaying (handleStop st).hook.svc = false ∧
      0 ≤ (handleStop st).index ∧
      (handleStop st).index ≤ (sd.script.length : Int) - 1) ∧
    (st.index = 0 → (handlePrevious st).index = 0) := by
  have hsvc : ∀ hs : HookState, svcIsPlaying (stop hs).svc = false := fun hs => by
    apply svcIsPlaying_of_currentAudio_none
    simp [stop]
  refine ⟨⟨rfl, rfl, rfl, hsvc st.hook, ?_, ?_⟩,
          ⟨rfl, rfl, rfl, hsvc st.hook, ?_, ?_⟩,
          ⟨rfl, rfl, rfl, hsvc st.hook, ?_, ?_⟩, ?_⟩
  · simp only [handlePrevious, goToPrevIndex]; omega
  · simp only [handlePrevious, goToPrevIndex]; omega
  · simp only [handleNext, goToNextIndex]; omega
  · simp only [handleNext, goToNextIndex]; omega
  · simp only [handleStop]; omega
  · simp only [handleStop]; omega
  · intro h
    simp only [handlePrevious, goToPrevIndex, h]
    omega

/-! ### C3 -/

theorem generateAndCacheAudio_hit (b : Backend) (t : String) (s : AudioServiceState) (j : Nat)
    (h : findKey t s.audioCache = some j) :
    generateAndCacheAudio b t s = (j, s, []) := by
  unfold generateAndCacheAudio
  rw [h]

theorem generateAndCacheAudio_findKey (b : Backend) (t : String) (s : AudioServiceState) :
    findKey t (generateAndCacheAudio b t s).2.1.audioCache =
      some (generateAndCacheAudio b t s).1 := by
  unfold generateAndCacheAudio
  cases hfk : findKey t s.audioCache <;> simp [hfk, findKey_cons_self]

theorem playAudioFromUrl_findKey (b : Backend) (url : String) (sp : Rat)
    (s : AudioServiceState) :
    findKey (fullUrlOf b.apiBase url) (playAudioFromUrl b url sp s).2.1.audioCache =
      some (playAudioFromUrl b url sp s).1 := by
  simp only [playAudioFromUrl, stopCurrentAudio_audioCache]
  cases hfk : findKey (fullUrlOf b.apiBase url) s.audioCache <;>
    simp [hfk, findKey_cons_self]

theorem playAudioFromUrl_hit (b : Backend) (url : String) (sp : Rat)
    (s : AudioServiceState) (j : Nat)
    (h : findKey (fullUrlOf b.apiBase url) s.audioCache = some j) :
    (playAudioFromUrl b url sp s).1 = j ∧
    (playAudioFromUrl b url sp s).2.2 = [Effect.mediaPlay j] := by
  simp [playAudioFromUrl, stopCurrentAudio_audioCache, h]

/-- C3: resolution is idempotent for each of the three cache-key kinds.
A second synthesis resolution for the same narration text returns the
identical element with no effects and an unchanged state; a second session
resolution for the same filename returns the identical element with no
effects; replaying the same URL returns the identical cached element and
issues only the `element.play()` call — no fetch, no element creation. -/
theorem resolution_idempotent (b : Backend) (t fn url : String) (sp sp₂ : Rat)
    (s : AudioServiceState) (id : Nat) (s₁ : AudioServiceState) (effs : List Effect)
    (hload : loadAudioFromSession fn s = .ok (id, s₁, effs)) :
    generateAndCacheAudio b t (generateAndCacheAudio b t s).2.1 =
      ((generateAndCacheAudio b t s).1, (generateAndCacheAudio b t s).2.1, []) ∧
    loadAudioFromSession fn s₁ = .ok (id, s₁, []) ∧
    (playAudioFromUrl b url sp₂ (playAudioFromUrl b url sp s).2.1).1 =
      (playAudioFromUrl b url sp s).1 ∧
    (playAudioFromUrl b url sp₂ (playAudioFromUrl b url sp s).2.1).2.2 =
      [Effect.mediaPlay (playAudioFromUrl b url sp s).1] := by
  refine ⟨generateAndCacheAudio_hit b t _ _ (generateAndCacheAudio_findKey b t s), ?_,
          (playAudioFromUrl_hit b url sp₂ _ _ (playAudioFromUrl_findKey b url sp s)).1,
          (playAudioFromUrl_hit b url sp₂ _ _ (playAudioFromUrl_findKey b url sp s)).2⟩
  unfold loadAudioFromSession at hload ⊢
  cases hsf : s.sessionFolder with
  | none => rw [hsf] at hload; cases hload
  | some folder =>
      rw [hsf] at hload
      cases hfk : findKey fn s.audioCache with
      | some j =>
          rw [hfk] at hload
          obtain ⟨h₁, h₂, h₃⟩ : j = id ∧ s = s₁ ∧ [] = effs := by
            simpa using hload
          subst h₁; subst h₂
          rw [hsf, hfk]
      | none =>
          rw [hfk] at hload
          obtain ⟨h₁, h₂, h₃⟩ : s.nextId = id ∧ _ = s₁ ∧ _ = effs := by
            simpa using hload
          subst h₁; subst h₂
          simp [findKey_cons_self, hsf]

/-- C3 witness: the audio service with a session folder configured. -/
def c3wsvc : AudioServiceState :=
  { heap := [], nextId := 0, audioCache := [], currentAudio := none,
    sessionFolder := some ("sess") }

/-- C3 witness: the state after the first session resolution. -/
def c3wsvc₁ : AudioServiceState :=
  { heap := [(0, { src := "/sessions/sess/audio/f.mp3", paused := true, currentTime := 0,
                   playbackRate := 1 })]
    nextId := 1
    audioCache := [(("f.mp3"), 0)]
    currentAudio := none
    sessionFolder := some ("sess") }

/-- Witness for C3 at a concrete input. -/
theorem resolution_idempotent_witness :
    loadAudioFromSession ("f.mp3") c3wsvc =
      .ok (0, c3wsvc₁, [Effect.createElement ("/sessions/sess/audio/f.mp3")]) ∧
    loadAudioFromSession ("f.mp3") c3wsvc₁ = .ok (0, c3wsvc₁, []) :=
  ⟨by rfl,
   (resolution_idempotent demoBackend ("hello") ("f.mp3") ("/a.mp3") 1 2 c3wsvc 0 c3wsvc₁
      [Effect.createElement ("/sessions/sess/audio/f.mp3")] (by rfl)).2.1⟩

/-! ### C6 -/

/-- C6: every resolution or playback failure during `play()` leaves
`isPlaying = false`, `isPaused = false`, `isLoading = false` (never a stuck
loading/playing state), records a user-visible error message, does not fire
`onBlockComplete`, and issues at most one synthesis request and at most one
`element.play()` call — no automatic retry. -/
theorem play_failure_clears_flags_no_retry (b : Backend) (ctx : PlayCtx) (st : HookState)
    (blk : ScriptBlock) (hblk : ctx.currentBlock = some blk) (hnp : st.isPlaying = false) :
    (play b ctx .mediaError st).state.isPlaying = false ∧
    (play b ctx .mediaError st).state.isPaused = false ∧
    (play b ctx .mediaError st).state.isLoading = false ∧
    (play b ctx .mediaError st).state.error ≠ none ∧
    (play b ctx .mediaError st).blockCompleted = false ∧
    ((play b ctx .mediaError st).effects.filter isTtsReq).length ≤ 1 ∧
    ((play b ctx .mediaError st).effects.filter isMediaPlayEff).length ≤ 1 := by
  unfold play playPhase1 playRoute
  rw [hblk]
  simp only [hnp, Bool.false_eq_true, if_false]
  cases hsrc : selectSource ctx.scriptData blk ctx.currentBlockIndex ctx.sessionFolder with
  | preUrl url =>
      simp only [playAudioFromUrl, stopCurrentAudio_audioCache]
      cases hfk : findKey (fullUrlOf b.apiBase url) st.svc.audioCache <;>
        simp [finishPlay, isTtsReq, isMediaPlayEff]
  | sessionFile f =>
      simp only [playAudioFromSession, loadAudioFromSession, stopCurrentAudio_audioCache,
                 stopCurrentAudio_sessionFolder]
      cases hsf : st.svc.sessionFolder with
      | none => simp [finishPlay, isTtsReq, isMediaPlayEff]
      | some folder =>
          cases hfk : findKey f st.svc.audioCache <;>
            simp [finishPlay, isTtsReq, isMediaPlayEff]
  | synthesis txt =>
      simp only [playAudio, generateAndCacheAudio, stopCurrentAudio_audioCache]
      cases hfk : findKey txt st.svc.audioCache <;>
        simp [finishPlay, isTtsReq, isMediaPlayEff]

/-- C6 witness context: a session filename but no session folder configured
— `play()` fails with a resolution error. -/
def c6wctx : PlayCtx :=
  { scriptData := { repository_path := ("r"), question := ("q"),
                    script := [{ type := .text, markdown := ("m") }] }
    currentBlock := some { type := .text, markdown := ("m") }
    currentBlockIndex := 0
    sessionFolder := none
    playbackSpeed := 1 }

/-- Witness for C6 at a concrete input. -/
theorem play_failure_clears_flags_no_retry_witness :
    c6wctx.currentBlock = some { type := .text, markdown := ("m") } ∧
    (play demoBackend c6wctx .mediaError hookInit).state.isPlaying = false ∧
    (play demoBackend c6wctx .mediaError hookInit).state.error ≠ none :=
  ⟨rfl,
   (play_failure_clears_flags_no_retry demoBackend c6wctx hookInit _ rfl rfl).1,
   (play_failure_clears_flags_no_retry demoBackend c6wctx hookInit _ rfl rfl).2.2.2.1⟩

/-! ### C7 -/

/-- C7 counterexample document: one block with a pre-generated URL. -/
def c7doc : ScriptData :=
  { repository_path := ("r"), question := ("q")
    script := [{ type := .text, markdown := ("m") }]
    audio_files := some [some ("http://h/a.mp3")] }

/-- C7 counterexample play context. -/
def c7ctx : PlayCtx :=
  { scriptData := c7doc, currentBlock := some { type := .text, markdown := ("m") }
    currentBlockIndex := 0, sessionFolder := none, playbackSpeed := 1 }

/-- The hook state while the first `play()` is awaiting its promise. -/
def c7afterStart : HookState :=
  match playPhase1 demoBackend c7ctx hookInit with
  | .awaiting st _ => st
  | .failed st _ => st
  | .noop => hookInit

/-- The state after 7 time units of output followed by `pause()`. -/
def c7paused : HookState :=
  pause { c7afterStart with svc := tickCurrent 7 c7afterStart.svc }

/-- The state while the second `play()` (the next play-type action after
the pause) is awaiting its promise. -/
def c7afterReplay : HookState :=
  match playPhase1 demoBackend c7ctx c7paused with
  | .awaiting st _ => st
  | .failed st _ => st
  | .noop => c7paused

/-- C7 counterexample: pausing at position 7 keeps the handle and its
position, but the next play-type action (`play()`) — because
`playAudioFromUrl` first runs `stopCurrentAudio()`, which resets
`currentTime` to 0 — restarts the identical cached handle (element 0) from
position zero, not from position 7. -/
theorem play_after_pause_restarts_counterexample :
    c7paused.svc.currentAudio = some 0 ∧
    heapGet c7paused.svc.heap 0 =
      some { src := ("http://h/a.mp3"), paused := true, currentTime := 7, playbackRate := 1 } ∧
    c7afterReplay.svc.currentAudio = some 0 ∧
    heapGet c7afterReplay.svc.heap 0 =
      some { src := ("http://h/a.mp3"), paused := false, currentTime := 0, playbackRate := 1 } := by
  decide

/-- C7 (amended): `pause()` suspends output without discarding the handle
and the playback position is preserved on the handle while paused; the
service's `resumeCurrentAudio()` would continue the identical handle at
that position.  (The hook's `play()`, the only play-type action the UI
invokes, instead restarts the cached handle from position zero — see the
counterexample.) -/
theorem pause_preserves_position_on_handle (st : HookState) (id : Nat) (e : AudioElem)
    (hcur : st.svc.currentAudio = some id)
    (hget : heapGet st.svc.heap id = some e)
    (hp : e.paused = false) :
    (pause st).svc.currentAudio = some id ∧
    heapGet (pause st).svc.heap id = some { e with paused := true } ∧
    (pause st).isPaused = true ∧
    (pause st).isPlaying = false ∧
    (resumeCurrentAudio (pause st).svc).currentAudio = some id ∧
    heapGet (resumeCurrentAudio (pause st).svc).heap id = some { e with paused := false } := by
  have h₁ : (pause st).svc.currentAudio = some id := by
    simp [pause, pauseCurrentAudio, hcur, hget, hp]
  have h₂ : heapGet (pause st).svc.heap id = some { e with paused := true } := by
    simp [pause, pauseCurrentAudio, hcur, hget, hp, heapGet_heapSet]
  refine ⟨h₁, h₂, rfl, rfl, ?_, ?_⟩
  · simp [resumeCurrentAudio, h₁, h₂]
  · simp [resumeCurrentAudio, h₁, h₂, heapGet_heapSet]

/-- C7 witness hook state: element 0 is playing at position 5. -/
def c7wstate : HookState :=
  { svc := { heap := [(0, { src := ("u"), paused := false, currentTime := 5, playbackRate := 1 })]
             nextId := 1
             audioCache := [(("u"), 0)]
             currentAudio := some 0
             sessionFolder := none }
    isPlaying := true, isPaused := false, isLoading := false, error := none }

/-- Witness for C7 (amended) at a concrete input. -/
theorem pause_preserves_position_on_handle_witness :
    c7wstate.svc.currentAudio = some 0 ∧
    heapGet c7wstate.svc.heap 0 =
      some { src := ("u"), paused := false, currentTime := 5, playbackRate := 1 } ∧
    heapGet (pause c7wstate).svc.heap 0 =
      some { src := ("u"), paused := true, currentTime := 5, playbackRate := 1 } :=
  ⟨rfl, rfl,
   (pause_preserves_position_on_handle c7wstate 0
      { src := ("u"), paused := false, currentTime := 5, playbackRate := 1 } rfl rfl rfl).2.1⟩

/-! ### C8 -/

theorem sessionFallback_none (blk : ScriptBlock) :
    sessionFallback blk none = .synthesis blk.markdown := by
  unfold sessionFallback
  cases hb : blk.audio_file <;> rfl

theorem playAudio_effects_mem (b : Backend) (txt : String) (sp : Rat)
    (s : AudioServiceState) :
    Effect.mediaPlay (playAudio b txt sp s).1 ∈ (playAudio b txt sp s).2.2 := by
  unfold playAudio
  simp

theorem playAudio_findKey (b : Backend) (txt : String) (sp : Rat) (s : AudioServiceState) :
    findKey txt (playAudio b txt sp s).2.1.audioCache = some (playAudio b txt sp s).1 := by
  unfold playAudio
  simpa using generateAndCacheAudio_findKey b txt (stopCurrentAudio s)

theorem playAudio_hit (b : Backend) (txt : String) (sp : Rat) (s : AudioServiceState)
    (id : Nat) (h : findKey txt s.audioCache = some id) :
    (playAudio b txt sp s).1 = id ∧ (playAudio b txt sp s).2.2 = [Effect.mediaPlay id] := by
  have hgen : generateAndCacheAudio b txt (stopCurrentAudio s) = (id, stopCurrentAudio s, []) :=
    generateAndCacheAudio_hit b txt _ id (by rw [stopCurrentAudio_audioCache]; exact h)
  unfold playAudio
  simp [hgen]

theorem play_synthesis_ended (b : Backend) (ctx : PlayCtx) (st : HookState) (txt : String)
    (hroute : playRoute ctx st.isPlaying = some (.synthesis txt)) :
    (play b ctx .ended st).effects = (playAudio b txt ctx.playbackSpeed st.svc).2.2 ∧
    (play b ctx .ended st).state.isPlaying = false ∧
    (play b ctx .ended st).state.svc.audioCache =
      (playAudio b txt ctx.playbackSpeed st.svc).2.1.audioCache := by
  unfold play playPhase1
  rw [hroute]
  simp [finishPlay]

/-- The play context of the synthesis scenario: no session folder. -/
def mkSynthCtx (sd : ScriptData) (blk : ScriptBlock) (i : Nat) (sp : Rat) : PlayCtx :=
  { scriptData := sd, currentBlock := some blk, currentBlockIndex := i,
    sessionFolder := none, playbackSpeed := sp }

@[simp] theorem mkSynthCtx_scriptData (sd : ScriptData) (blk : ScriptBlock) (i : Nat)
    (sp : Rat) : (mkSynthCtx sd blk i sp).scriptData = sd := rfl

@[simp] theorem mkSynthCtx_currentBlock (sd : ScriptData) (blk : ScriptBlock) (i : Nat)
    (sp : Rat) : (mkSynthCtx sd blk i sp).currentBlock = some blk := rfl

@[simp] theorem mkSynthCtx_currentBlockIndex (sd : ScriptData) (blk : ScriptBlock) (i : Nat)
    (sp : Rat) : (mkSynthCtx sd blk i sp).currentBlockIndex = i := rfl

@[simp] theorem mkSynthCtx_sessionFolder (sd : ScriptData) (blk : ScriptBlock) (i : Nat)
    (sp : Rat) : (mkSynthCtx sd blk i sp).sessionFolder = none := rfl

@[simp] theorem mkSynthCtx_playbackSpeed (sd : ScriptData) (blk : ScriptBlock) (i : Nat)
    (sp : Rat) : (mkSynthCtx sd blk i sp).playbackSpeed = sp := rfl

/-- C8: the synthesis fallback caches by the narration text, not by the
block index: for two blocks at different indices with identical narration
text, no `audio_files` entries and no session folder, the second `play()`
is a cache hit — its only effect is `element.play()` on the very element
synthesised for the first block (no second synthesis request, no element
creation). -/
theorem synthesis_cache_keyed_by_text (b : Backend) (sd : ScriptData) (i j : Nat)
    (blkA blkB : ScriptBlock) (sp : Rat) (st : HookState) (r₁ r₂ : PlayResult)
    (haf : sd.audio_files = none) (hm : blkA.markdown = blkB.markdown)
    (hnp : st.isPlaying = false)
    (hr₁ : r₁ = play b (mkSynthCtx sd blkA i sp) .ended st)
    (hr₂ : r₂ = play b (mkSynthCtx sd blkB j sp) .ended r₁.state) :
    ∃ id, Effect.mediaPlay id ∈ r₁.effects ∧ r₂.effects = [Effect.mediaPlay id] := by
  subst hr₁
  subst hr₂
  have hselA : selectSource sd blkA i none = .synthesis blkA.markdown := by
    simp [selectSource, haf, sessionFallback_none]
  have hselB : selectSource sd blkB j none = .synthesis blkB.markdown := by
    simp [selectSource, haf, sessionFallback_none]
  have hrA : playRoute (mkSynthCtx sd blkA i sp) st.isPlaying =
      some (.synthesis blkA.markdown) := by
    simp [playRoute, hnp, hselA]
  obtain ⟨he₁, hp₁, hc₁⟩ := play_synthesis_ended b (mkSynthCtx sd blkA i sp) st
    blkA.markdown hrA
  have hrB : playRoute (mkSynthCtx sd blkB j sp)
      (play b (mkSynthCtx sd blkA i sp) .ended st).state.isPlaying =
      some (.synthesis blkB.markdown) := by
    simp [playRoute, hp₁, hselB]
  obtain ⟨he₂, hp₂, hc₂⟩ := play_synthesis_ended b (mkSynthCtx sd blkB j sp)
    (play b (mkSynthCtx sd blkA i sp) .ended st).state blkB.markdown hrB
  simp only [mkSynthCtx_playbackSpeed] at he₁ hc₁ he₂
  refine ⟨(playAudio b blkA.markdown sp st.svc).1, ?_, ?_⟩
  · rw [he₁]
    exact playAudio_effects_mem b blkA.markdown sp st.svc
  · rw [he₂]
    have hk : findKey blkB.markdown
        (play b (mkSynthCtx sd blkA i sp) .ended st).state.svc.audioCache =
        some (playAudio b blkA.markdown sp st.svc).1 := by
      rw [hc₁, ← hm]
      exact playAudio_findKey b blkA.markdown sp st.svc
    exact (playAudio_hit b blkB.markdown sp _ _ hk).2

/-- C8 witness blocks with identical narration text. -/
def c8blockA : ScriptBlock := { type := .text, markdown := ("same") }

/-- Second C8 witness block (different index, same narration text). -/
def c8blockB : ScriptBlock := { type := .code, markdown := ("same"), file := some ("f.ts") }

/-- C8 witness document: no `audio_files`. -/
def c8doc : ScriptData :=
  { repository_path := ("r"), question := ("q"), script := [c8blockA, c8blockB] }

/-- C8 witness context for the first block. -/
def c8ctxA : PlayCtx :=
  { scriptData := c8doc, currentBlock := some c8blockA, currentBlockIndex := 0,
    sessionFolder := none, playbackSpeed := 1 }

/-- C8 witness context for the second block. -/
def c8ctxB : PlayCtx :=
  { scriptData := c8doc, currentBlock := some c8blockB, currentBlockIndex := 1,
    sessionFolder := none, playbackSpeed := 1 }

/-- The result of the first witness `play()`. -/
def c8r₁ : PlayResult := play demoBackend c8ctxA .ended hookInit

/-- The result of the second witness `play()`. -/
def c8r₂ : PlayResult := play demoBackend c8ctxB .ended c8r₁.state

/-- Witness for C8 at a concrete input. -/
theorem synthesis_cache_keyed_by_text_witness :
    c8doc.audio_files = none ∧ c8blockA.markdown = c8blockB.markdown ∧
    (∃ id, Effect.mediaPlay id ∈ c8r₁.effects ∧ c8r₂.effects = [Effect.mediaPlay id]) :=
  ⟨rfl, rfl,
   synthesis_cache_keyed_by_text demoBackend c8doc 0 1 c8blockA c8blockB 1 hookInit
     c8r₁ c8r₂ rfl rfl rfl rfl rfl⟩

/-- C5 witness player state: idle hook, index 0, one-block script. -/
def c5wstate : PlayerState := { hook := hookInit, index := 0, shouldAutoPlay := false }

/-- Witness for C5 at a concrete input. -/
theorem navigation_stops_playback_and_clamps_witness :
    (0 ≤ c5wstate.index ∧ c5wstate.index ≤ (c9wdoc.script.length : Int) - 1) ∧
    (handlePrevious c5wstate).index = 0 :=
  ⟨⟨by decide, by decide⟩,
   (navigation_stops_playback_and_clamps c9wdoc c5wstate (by decide) (by decide)).2.2.2 rfl⟩

end Docc
